import Mathlib

/-!
Verification development for the mirrord-mcp execution orchestrator.

The Rust sources are shallowly embedded: pure data transformations become
Lean functions, and calls to external collaborators (kubectl, npm, cargo,
the mirrord binary, the filesystem, serde_json parsing) become explicit
oracle inputs describing the outcome of the call.  Each embedded function
mirrors the branch structure and the literal error messages of its source.
-/

set_option autoImplicit false

/-- Model of `serde_json::Value` (src uses serde_json for all config handling). -/
inductive Json where
  | null
  | bool (b : Bool)
  | num (n : Int)
  | str (s : String)
  | arr (elems : List Json)
  | obj (fields : List (String × Json))

/-- Lookup of a key in an object's field list (serde map lookup, at the
membership level: parsed serde objects have unique keys). -/
def lookupField : List (String × Json) → String → Option Json
  | [], _ => none
  | (k, v) :: rest, key => if k = key then some v else lookupField rest key

/-- Map-style insert: replaces the value of an existing key, otherwise adds
the binding (semantics of `serde_json::Map::insert` at the membership level). -/
def insertField : List (String × Json) → String → Json → List (String × Json)
  | [], key, v => [(key, v)]
  | (k, v0) :: rest, key, v =>
      if k = key then (key, v) :: rest else (k, v0) :: insertField rest key v

/-- Field access on a JSON value, as `Value::get`/`as_object` lookup. -/
def Json.get : Json → String → Option Json
  | .obj fields, key => lookupField fields key
  | _, _ => none

/-- Indexing as `serde_json::Value::index` (`config["feature"]`): returns the
field's value on an object that has the key, and `Null` in every other case. -/
def Json.index (j : Json) (key : String) : Json :=
  match j.get key with
  | some v => v
  | none => .null

/-- Whether the top-level value is a JSON object (`Value::as_object` succeeds). -/
def Json.isObject : Json → Bool
  | .obj _ => true
  | _ => false

/-- Top-level keys of a JSON object. -/
def Json.objKeys : Json → List String
  | .obj fields => fields.map Prod.fst
  | _ => []

/-- Model of `rmcp::Error` as produced by `McpError::internal_error(msg, None)`:
the carried payload is the message string. -/
structure McpError where
  message : String

/-- Model of `std::io::Error` at the granularity the sources inspect it:
whether `kind() == ErrorKind::NotFound`, plus its display text. -/
structure OsErr where
  notFound : Bool
  msg : String

/-- Model of `std::process::Output`: exit code (`None` when killed by a
signal), captured streams, and whether stdout is valid UTF-8 (only
`handle_kubectl_output` distinguishes this; lossy conversions never fail). -/
structure ProcOutput where
  exitCode : Option Int
  stdout : String
  stderr : String
  stdoutUtf8 : Bool

/-- Model of `ExitStatus::success()`: true exactly when the exit code is 0. -/
def ProcOutput.success (o : ProcOutput) : Bool :=
  match o.exitCode with
  | some c => c == 0
  | none => false

/-- Outcome of `timeout(T, task::spawn_blocking(|| Command::new(..).output())).await`:
the command completed (with the spawn's `io::Result<Output>`), the blocking
task's join failed, or the deadline elapsed first. -/
inductive TaskOutcome where
  | completed (result : Except OsErr ProcOutput)
  | joinFailed (msg : String)
  | timedOut

/-- Embedding of `handle_kubectl_output` (src/tools/utils.rs): classifies the
kubectl query's output — success with UTF-8 stdout yields the pod name unless
it is empty (no pod found); a failing status reports kubectl's stderr. -/
def handle_kubectl_output (output : ProcOutput) (deployment : String) :
    Except McpError String :=
  if output.success then
    if output.stdoutUtf8 then
      if output.stdout = "" then
        .error ⟨"No pod found for deployment: " ++ deployment⟩
      else
        .ok output.stdout
    else
      .error ⟨"Failed to parse pod name from kubectl output"⟩
  else
    .error ⟨"kubectl command failed: " ++ output.stderr⟩

/-- The kubectl query deadline of src/tools/utils.rs, in seconds. -/
def KUBECTL_TIMEOUT : Nat := 30

/-- Embedding of `get_pod_name` (src/tools/utils.rs): the kubectl invocation's
outcome is the oracle input; the four match arms mirror the source. -/
def get_pod_name (deployment : String) (kubectl : TaskOutcome) :
    Except McpError String :=
  match kubectl with
  | .completed (.ok output) => handle_kubectl_output output deployment
  | .completed (.error e) =>
      if e.notFound then
        .error ⟨"Failed to execute kubectl: 'kubectl' command not found in PATH."⟩
      else
        .error ⟨"Failed to start kubectl process: " ++ e.msg⟩
  | .joinFailed m => .error ⟨"kubectl task failed: " ++ m⟩
  | .timedOut =>
      .error ⟨"kubectl command timed out after " ++ toString KUBECTL_TIMEOUT ++ "s"⟩

/-- The `target` value inserted by the config merge (the binder `nspace`
stands for the source's `namespace` argument, a Lean keyword):
`json!("namespace": namespace, "path": format!("pod/..", pod_name))`. -/
def target_value (nspace pod_name : String) : Json :=
  .obj [("namespace", .str nspace), ("path", .str ("pod/" ++ pod_name))]

/-- Embedding of `update_mirrord_config` (src/tools/utils.rs).  The pod is
resolved first; then the caller's config string, whose serde parse outcome is
the oracle `mirrord_config` (`none` = unparseable), must be a JSON object,
into which the resolved `target` is inserted.  Serialization of the resulting
string-keyed value (`serde_json::to_string`) cannot fail, so the embedding
returns the merged value itself. -/
def update_mirrord_config (mirrord_config : Option Json)
    (deployment nspace : String) (kubectl : TaskOutcome) :
    Except McpError Json :=
  match get_pod_name deployment kubectl with
  | .error e => .error e
  | .ok pod_name =>
    match mirrord_config with
    | none => .error ⟨"Failed to parse mirrord config"⟩
    | some config =>
      match config with
      | .obj fields =>
          .ok (.obj (insertField fields "target" (target_value nspace pod_name)))
      | _ => .error ⟨"Mirrord config must be a JSON object"⟩

/-- Embedding of the `updated_config` expression built by `run` in
src/tools/node.rs (lines 35-41) and `run_service` in src/run_service.rs
(lines 124-130): a fresh two-key object holding the resolved `target` and the
caller document's `feature` field (`config["feature"]`, which is `Null` when
the key is absent or the document is not an object). -/
def updated_config (pod_name : String) (config : Json) : Json :=
  .obj [("target", target_value "default" pod_name),
        ("feature", config.index "feature")]

/-- The mirrord execution deadline of src/tools/executor.rs, in seconds. -/
def MIRRORD_EXEC_TIMEOUT : Nat := 120

/-- Rendering of the exit code in the failure message of
src/tools/executor.rs: `status.code().map_or_else(|| "None".to_string(), |c| c.to_string())`. -/
def exitCodeInfo : Option Int → String
  | none => "None"
  | some c => toString c

/-- Oracle inputs of one `execute_mirrord_run` call (src/tools/executor.rs):
the outcome of every call it makes to an external collaborator, in program
order.  The language-specific runner is abstracted at its `MirrordRunnable`
trait boundary (`setupResult`, `commandArgs`); `parsedConfig` is the serde
parse outcome of the caller's config string, `none` when unparseable. -/
structure ExecEnv where
  tempdirOk : Bool
  setupResult : Except McpError Unit
  kubectl : TaskOutcome
  parsedConfig : Option Json
  configFileOk : Bool
  configWriteOk : Bool
  commandArgs : Except McpError (List String)
  mirrord : TaskOutcome

/-- Observable outcome of one `execute_mirrord_run` call: the returned value,
whether the mirrord execution step (step 5) was reached, whether the config
temp file was created, and whether the workspace temp directory still exists
on the filesystem when the call returns (the `TempDir` is dropped, and hence
removed, on every exit path). -/
structure ExecResult where
  result : Except McpError String
  mirrordInvoked : Bool
  configFileCreated : Bool
  tempDirExists : Bool

/-- Embedding of `execute_mirrord_run` (src/tools/executor.rs).  Steps in
source order: create temp dir, run the runner's setup, merge the config,
persist it to a temp file, fetch the command args, run mirrord under the
120-second deadline, classify the output.  Every `return` path drops the
`TempDir`, so `tempDirExists` is false at every exit. -/
def execute_mirrord_run (deployment nspace : String) (env : ExecEnv) :
    ExecResult :=
  if ¬ env.tempdirOk then
    ⟨.error ⟨"Failed to create temporary directory"⟩, false, false, false⟩
  else match env.setupResult with
  | .error e => ⟨.error e, false, false, false⟩
  | .ok () =>
    match update_mirrord_config env.parsedConfig deployment nspace env.kubectl with
    | .error e => ⟨.error e, false, false, false⟩
    | .ok _config =>
      if ¬ env.configFileOk then
        ⟨.error ⟨"Failed to create temp config file"⟩, false, false, false⟩
      else if ¬ env.configWriteOk then
        ⟨.error ⟨"Failed to write mirrord config"⟩, false, true, false⟩
      else match env.commandArgs with
      | .error e => ⟨.error e, false, true, false⟩
      | .ok _args =>
        match env.mirrord with
        | .timedOut =>
            ⟨.error ⟨"Mirrord execution timed out after " ++
                toString MIRRORD_EXEC_TIMEOUT ++ "s"⟩, true, true, false⟩
        | .joinFailed m =>
            ⟨.error ⟨"mirrord task failed: " ++ m⟩, true, true, false⟩
        | .completed (.error e) =>
            if e.notFound then
              ⟨.error ⟨"Failed to execute mirrord: 'mirrord' command not found in PATH."⟩,
                true, true, false⟩
            else
              ⟨.error ⟨"Failed to start mirrord process: " ++ e.msg⟩, true, true, false⟩
        | .completed (.ok out) =>
            if out.success then ⟨.ok out.stdout, true, true, false⟩
            else
              ⟨.error ⟨"Mirrord execution failed (Exit Code: " ++
                  exitCodeInfo out.exitCode ++ "): " ++ out.stderr⟩, true, true, false⟩

/-- Oracle inputs of the legacy Node variant `run` (src/tools/node.rs), one
per external call in program order.  `podResult` is the outcome of its
`get_pod_name` call; `npm` and `mirrord` are direct `Command::output` results
(node.rs runs them without a timeout). -/
structure NodeEnv where
  podResult : Except McpError String
  parsedConfig : Option Json
  createDirOk : Bool
  writePackageJsonOk : Bool
  writeIndexJsOk : Bool
  npm : Except OsErr ProcOutput
  tempFileOk : Bool
  tempWriteOk : Bool
  pathUtf8Ok : Bool
  mirrord : Except OsErr ProcOutput

/-- Observable outcome of the Node variant `run`: the returned value and
whether the per-request project directory `/tmp/mirrord_node_code_<uuid>`
still exists on the filesystem when the function returns. -/
structure NodeResult where
  result : Except McpError String
  dirExists : Bool

/-- Embedding of `run` (src/tools/node.rs).  The project directory is created
after the config merge and removed only by the cleanup that follows the
mirrord invocation; every earlier failure returns with the directory still
present. -/
def node_run (env : NodeEnv) : NodeResult :=
  match env.podResult with
  | .error e => ⟨.error e, false⟩
  | .ok pod_name =>
    match env.parsedConfig with
    | none => ⟨.error ⟨"Failed to parse mirrord config"⟩, false⟩
    | some config =>
      let _config_str := updated_config pod_name config
      if ¬ env.createDirOk then
        ⟨.error ⟨"Failed to create project directory"⟩, false⟩
      else if ¬ env.writePackageJsonOk then
        ⟨.error ⟨"Failed to write package.json"⟩, true⟩
      else if ¬ env.writeIndexJsOk then
        ⟨.error ⟨"Failed to write index.js"⟩, true⟩
      else match env.npm with
      | .error _e => ⟨.error ⟨"Failed to execute npm install"⟩, true⟩
      | .ok npmOut =>
        if ¬ npmOut.success then
          ⟨.error ⟨"npm install failed: " ++ npmOut.stderr⟩, true⟩
        else if ¬ env.tempFileOk then
          ⟨.error ⟨"Failed to create temp file"⟩, true⟩
        else if ¬ env.tempWriteOk then
          ⟨.error ⟨"Failed to write mirrord config"⟩, true⟩
        else if ¬ env.pathUtf8Ok then
          ⟨.error ⟨"Failed to convert path to string"⟩, true⟩
        else match env.mirrord with
        | .error _e => ⟨.error ⟨"Failed to execute mirrord"⟩, true⟩
        | .ok out =>
          if out.success then ⟨.ok out.stdout, false⟩
          else ⟨.error ⟨"Mirrord execution failed: " ++ out.stderr⟩, false⟩

/-- The cargo build deadline of src/tools/rust.rs, in seconds. -/
def CARGO_BUILD_TIMEOUT : Nat := 180

/-- Path of the binary produced by the Rust runner
(`RustRunner::get_binary_path`, src/tools/rust.rs):
`project_dir/target/<compile_mode>/mirrord-agent-code`. -/
def get_binary_path (compile_mode project_dir : String) : String :=
  project_dir ++ "/target/" ++ compile_mode ++ "/mirrord-agent-code"

/-- Oracle inputs of `RustRunner::setup_project` (src/tools/rust.rs), one per
external call in program order; `binaryExists` is the result of the
`binary_path.exists()` check performed after a successful build. -/
structure RustSetupEnv where
  createSrcOk : Bool
  writeCargoTomlOk : Bool
  writeMainRsOk : Bool
  cargo : TaskOutcome
  binaryExists : Bool

/-- Embedding of `RustRunner::setup_project` (src/tools/rust.rs): writes the
manifest and source, runs `cargo build` under the 180-second deadline, fails
on a non-zero build status with cargo's stderr, and fails when the produced
binary is absent from the expected path even though the build reported
success. -/
def rust_setup_project (compile_mode project_dir : String)
    (env : RustSetupEnv) : Except McpError Unit :=
  if ¬ env.createSrcOk then .error ⟨"Failed to create src directory"⟩
  else if ¬ env.writeCargoTomlOk then .error ⟨"Failed to write Cargo.toml"⟩
  else if ¬ env.writeMainRsOk then .error ⟨"Failed to write main.rs"⟩
  else match env.cargo with
  | .completed (.ok out) =>
      if ¬ out.success then .error ⟨"Rust build failed: " ++ out.stderr⟩
      else if ¬ env.binaryExists then
        .error ⟨"Compiled binary not found after successful build at: " ++
          get_binary_path compile_mode project_dir⟩
      else .ok ()
  | .completed (.error e) =>
      if e.notFound then
        .error ⟨"Failed to execute cargo: 'cargo' command not found in PATH."⟩
      else .error ⟨"Failed to start cargo process: " ++ e.msg⟩
  | .joinFailed m => .error ⟨"cargo task failed: " ++ m⟩
  | .timedOut =>
      .error ⟨"Cargo build timed out after " ++ toString CARGO_BUILD_TIMEOUT ++ "s"⟩

/-- Oracle inputs of the legacy `run_service` function (src/run_service.rs),
one per external call in program order.  `cargo` and `mirrord` are direct
`Command::output` results (run_service.rs runs them without a timeout);
`binaryExists` is the `Path::new(&binary_path).exists()` check. -/
structure RunServiceEnv where
  podResult : Except McpError String
  parsedConfig : Option Json
  createDirOk : Bool
  writeCargoTomlOk : Bool
  writeMainRsOk : Bool
  cargo : Except OsErr ProcOutput
  binaryExists : Bool
  tempFileOk : Bool
  tempWriteOk : Bool
  pathUtf8Ok : Bool
  mirrord : Except OsErr ProcOutput

/-- Observable outcome of `run_service`: the returned value, whether the
mirrord execution was reached, and whether the project directory
`/tmp/mirrord_agent_code_<uuid>` still exists when the function returns. -/
structure RunServiceResult where
  result : Except McpError String
  mirrordInvoked : Bool
  dirExists : Bool

/-- Embedding of `run_service` (src/run_service.rs): resolve the pod, parse
the caller's config (a parse success of any JSON value — object or not — is
accepted; the merge keeps only `config["feature"]`), write the project, build
it, check the binary exists, write the config file, and run mirrord.  The
project directory is removed only by the cleanup after the mirrord
invocation. -/
def run_service (compile_mode project_dir : String) (env : RunServiceEnv) :
    RunServiceResult :=
  match env.podResult with
  | .error e => ⟨.error e, false, false⟩
  | .ok pod_name =>
    match env.parsedConfig with
    | none => ⟨.error ⟨"Failed to parse mirrord config"⟩, false, false⟩
    | some config =>
      let _config_str := updated_config pod_name config
      if ¬ env.createDirOk then
        ⟨.error ⟨"Failed to create project directory"⟩, false, false⟩
      else if ¬ env.writeCargoTomlOk then
        ⟨.error ⟨"Failed to write Cargo.toml"⟩, false, true⟩
      else if ¬ env.writeMainRsOk then
        ⟨.error ⟨"Failed to write main.rs"⟩, false, true⟩
      else match env.cargo with
      | .error _e => ⟨.error ⟨"Failed to execute cargo build"⟩, false, true⟩
      | .ok buildOut =>
        if ¬ buildOut.success then
          ⟨.error ⟨"Build failed: " ++ buildOut.stderr⟩, false, true⟩
        else if ¬ env.binaryExists then
          ⟨.error ⟨"Binary not found at: " ++
            (project_dir ++ "/target/" ++ compile_mode ++ "/agent-code")⟩,
            false, true⟩
        else if ¬ env.tempFileOk then
          ⟨.error ⟨"Failed to create temp file"⟩, false, true⟩
        else if ¬ env.tempWriteOk then
          ⟨.error ⟨"Failed to write mirrord config"⟩, false, true⟩
        else if ¬ env.pathUtf8Ok then
          ⟨.error ⟨"Failed to convert path to string"⟩, false, true⟩
        else match env.mirrord with
        | .error _e => ⟨.error ⟨"Failed to execute mirrord"⟩, true, true⟩
        | .ok out =>
          if out.success then ⟨.ok out.stdout, true, false⟩
          else ⟨.error ⟨"Mirrord execution failed: " ++ out.stderr⟩, true, false⟩

/-- Single-quote character, written via its code point. -/
def squote : Char := Char.ofNat 39

/-- Worker of the shell-word tokenizer: `quote` is the currently open quote
character (if any), `inWord` whether a token has started, `cur` the reversed
characters of the current token, `acc` the reversed list of finished tokens. -/
def splitWordsAux (quote : Option Char) (inWord : Bool) (cur : List Char)
    (acc : List String) : List Char → List String
  | [] => (if inWord then (⟨cur.reverse⟩ : String) :: acc else acc).reverse
  | c :: rest =>
    match quote with
    | some q =>
      if c = q then splitWordsAux none true cur acc rest
      else if q = '"' ∧ c = '\\' then
        match rest with
        | [] => splitWordsAux quote true (c :: cur) acc []
        | d :: rest2 => splitWordsAux quote true (d :: cur) acc rest2
      else splitWordsAux quote true (c :: cur) acc rest
    | none =>
      if c = ' ' ∨ c = '\t' ∨ c = '\n' then
        if inWord then splitWordsAux none false [] ((⟨cur.reverse⟩ : String) :: acc) rest
        else splitWordsAux none false [] acc rest
      else if c = '"' ∨ c = squote then splitWordsAux (some c) true cur acc rest
      else if c = '\\' then
        match rest with
        | [] => splitWordsAux none true (c :: cur) acc []
        | d :: rest2 => splitWordsAux none true (d :: cur) acc rest2
      else splitWordsAux none true (c :: cur) acc rest

/-- Modelled from the spec: the tokenizer of the Raw-Command variant.  The
repository's `impl MirrordRunnable` for the command string passed by
`MirrordService::run` (src/tools/tool.rs) is not under src/; per the spec the
command line is split "using shell-word-splitting semantics (quoting
respected, no shell expansion)". -/
def splitShellWords (s : String) : List String :=
  splitWordsAux none false [] [] s.data

theorem lookupField_insertField_self (fields : List (String × Json))
    (key : String) (v : Json) :
    lookupField (insertField fields key v) key = some v := by
  induction fields with
  | nil => simp [insertField, lookupField]
  | cons hd tl ih =>
    by_cases h : hd.1 = key
    · simp [insertField, h, lookupField]
    · simp [insertField, h, lookupField, ih]

theorem lookupField_insertField_ne (fields : List (String × Json))
    (key k : String) (v : Json) (hk : k ≠ key) :
    lookupField (insertField fields key v) k = lookupField fields k := by
  induction fields with
  | nil => simp [insertField, lookupField, Ne.symm hk]
  | cons hd tl ih =>
    obtain ⟨k1, v1⟩ := hd
    by_cases h : k1 = key
    · simp [insertField, lookupField, h, Ne.symm hk]
    · simp only [insertField, if_neg h, lookupField]
      by_cases h2 : k1 = k
      · simp [h2]
      · simp [h2, ih]

/-- C1 (amended, part 1): for `update_mirrord_config`, whenever pod
resolution yields a pod name and the caller's config parses to a JSON
object, the merge succeeds with an object in which every top-level key other
than `target` keeps its original value, and `target` maps to an object whose
`path` field is the string "pod/" followed by the resolved pod name. -/
theorem update_mirrord_config_frame
    (fields : List (String × Json)) (deployment nspace pod : String)
    (kubectl : TaskOutcome)
    (hpod : get_pod_name deployment kubectl = .ok pod) :
    ∃ fields2,
      update_mirrord_config (some (.obj fields)) deployment nspace kubectl =
        .ok (.obj fields2) ∧
      lookupField fields2 "target" = some (target_value nspace pod) ∧
      (target_value nspace pod).get "path" = some (.str ("pod/" ++ pod)) ∧
      ∀ k, k ≠ "target" → lookupField fields2 k = lookupField fields k := by
  refine ⟨insertField fields "target" (target_value nspace pod), ?_, ?_, ?_, ?_⟩
  · simp [update_mirrord_config, hpod]
  · exact lookupField_insertField_self ..
  · simp [target_value, Json.get, lookupField]
  · intro k hk
    exact lookupField_insertField_ne _ _ _ _ hk

/-- C1 (witness): the frame property of `update_mirrord_config` evaluated at
a concrete kubectl outcome resolving pod "checkout-7f9" and the config
document with the single key "feature". -/
theorem update_mirrord_config_frame_witness :
    ∃ fields2,
      update_mirrord_config (some (.obj [("feature", Json.num 1)])) "checkout"
          "default" (.completed (.ok ⟨some 0, "checkout-7f9", "", true⟩)) =
        .ok (.obj fields2) ∧
      lookupField fields2 "target" = some (target_value "default" "checkout-7f9") ∧
      (target_value "default" "checkout-7f9").get "path" =
        some (.str ("pod/" ++ "checkout-7f9")) ∧
      ∀ k, k ≠ "target" →
        lookupField fields2 k = lookupField [("feature", Json.num 1)] k :=
  update_mirrord_config_frame [("feature", Json.num 1)] "checkout" "default"
    "checkout-7f9" (.completed (.ok ⟨some 0, "checkout-7f9", "", true⟩)) rfl

/-- C1 (counterexample): the claim also covers the per-variant merge of
src/tools/node.rs (the `updated_config` expression), and that merge does not
pass non-`target` keys through: a caller document with the top-level key
"agent" loses it. -/
theorem updated_config_drops_key_counterexample :
    ¬ (∀ k, k ≠ "target" →
        (updated_config "checkout-7f9" (Json.obj [("agent", Json.num 1)])).get k =
          (Json.obj [("agent", Json.num 1)]).get k) := by
  intro h
  have h2 := h "agent" (by decide)
  simp [updated_config, target_value, Json.get, Json.index, lookupField] at h2

/-- C10: the node/run_service merge always produces exactly the two
top-level keys `target` and `feature`; `feature` is the caller document's
`feature` field and is JSON null whenever the document is not an object or
lacks the key. -/
theorem updated_config_shape (pod : String) (config : Json) :
    (updated_config pod config).objKeys = ["target", "feature"] ∧
    (updated_config pod config).get "target" = some (target_value "default" pod) ∧
    (updated_config pod config).get "feature" = some (config.index "feature") ∧
    (config.isObject = false → config.index "feature" = Json.null) ∧
    (config.get "feature" = none → config.index "feature" = Json.null) := by
  refine ⟨rfl, ?_, ?_, ?_, ?_⟩
  · simp [updated_config, Json.get, lookupField]
  · simp [updated_config, Json.get, lookupField]
  · intro h
    cases config <;> simp_all [Json.isObject, Json.index, Json.get]
  · intro h
    simp [Json.index, h]

/-- C10 (witness): the merge shape evaluated at a non-object caller document
(an empty JSON array): both keys are present and `feature` is null. -/
theorem updated_config_shape_witness :
    (updated_config "p" (Json.arr [])).objKeys = ["target", "feature"] ∧
    (updated_config "p" (Json.arr [])).get "feature" =
      some ((Json.arr []).index "feature") ∧
    (Json.arr []).index "feature" = Json.null :=
  ⟨(updated_config_shape "p" (Json.arr [])).1,
   (updated_config_shape "p" (Json.arr [])).2.2.1,
   (updated_config_shape "p" (Json.arr [])).2.2.2.1 rfl⟩

/-- C6 (amended): in the shared executor path, once pod resolution succeeds,
a caller config that parses to a non-object JSON value makes the merge fail
with the "Mirrord config must be a JSON object" error and the mirrord
execution step is never reached. -/
theorem executor_rejects_non_object_config
    (env : ExecEnv) (deployment nspace pod : String) (j : Json)
    (htd : env.tempdirOk = true) (hsetup : env.setupResult = .ok ())
    (hpod : get_pod_name deployment env.kubectl = .ok pod)
    (hparse : env.parsedConfig = some j) (hobj : j.isObject = false) :
    (execute_mirrord_run deployment nspace env).result =
      .error ⟨"Mirrord config must be a JSON object"⟩ ∧
    (execute_mirrord_run deployment nspace env).mirrordInvoked = false := by
  cases j <;>
    simp_all [execute_mirrord_run, update_mirrord_config, Json.isObject]

/-- C6 (witness): the executor evaluated at a concrete environment whose
config parses to the JSON number 3: the merge fails with the non-object
error and mirrord is not invoked. -/
theorem executor_rejects_non_object_config_witness :
    (execute_mirrord_run "d" "default"
        ⟨true, .ok (), .completed (.ok ⟨some 0, "p", "", true⟩),
         some (Json.num 3), true, true, .ok [], .timedOut⟩).result =
      .error ⟨"Mirrord config must be a JSON object"⟩ ∧
    (execute_mirrord_run "d" "default"
        ⟨true, .ok (), .completed (.ok ⟨some 0, "p", "", true⟩),
         some (Json.num 3), true, true, .ok [], .timedOut⟩).mirrordInvoked = false :=
  executor_rejects_non_object_config _ "d" "default" "p" (Json.num 3)
    rfl rfl rfl rfl rfl

/-- C6 (counterexample): the claim also covers `run_service`
(src/run_service.rs), and there a parseable non-object config (an empty JSON
array) is not rejected: the request proceeds all the way to the mirrord
execution and succeeds. -/
theorem run_service_accepts_non_object_counterexample :
    (run_service "release" "/tmp/proj"
        ⟨.ok "p", some (Json.arr []), true, true, true,
         .ok ⟨some 0, "", "", true⟩, true, true, true, true,
         .ok ⟨some 0, "out", "", true⟩⟩).result = .ok "out" ∧
    (run_service "release" "/tmp/proj"
        ⟨.ok "p", some (Json.arr []), true, true, true,
         .ok ⟨some 0, "", "", true⟩, true, true, true, true,
         .ok ⟨some 0, "out", "", true⟩⟩).mirrordInvoked = true ∧
    (Json.arr []).isObject = false :=
  ⟨rfl, rfl, rfl⟩

/-- C8: once pod resolution succeeds, an unparseable caller config makes
`update_mirrord_config` fail with the "Failed to parse mirrord config" error,
and at that point the executor has not created (or written) the config temp
file nor invoked mirrord — the merge itself performs no filesystem writes. -/
theorem executor_invalid_json_no_writes
    (env : ExecEnv) (deployment nspace pod : String)
    (htd : env.tempdirOk = true) (hsetup : env.setupResult = .ok ())
    (hpod : get_pod_name deployment env.kubectl = .ok pod)
    (hparse : env.parsedConfig = none) :
    (execute_mirrord_run deployment nspace env).result =
      .error ⟨"Failed to parse mirrord config"⟩ ∧
    (execute_mirrord_run deployment nspace env).configFileCreated = false ∧
    (execute_mirrord_run deployment nspace env).mirrordInvoked = false := by
  simp_all [execute_mirrord_run, update_mirrord_config]

/-- C8 (witness): the executor evaluated at a concrete environment whose
config string is unparseable (`parsedConfig = none`). -/
theorem executor_invalid_json_no_writes_witness :
    (execute_mirrord_run "d" "default"
        ⟨true, .ok (), .completed (.ok ⟨some 0, "p", "", true⟩),
         none, true, true, .ok [], .timedOut⟩).result =
      .error ⟨"Failed to parse mirrord config"⟩ ∧
    (execute_mirrord_run "d" "default"
        ⟨true, .ok (), .completed (.ok ⟨some 0, "p", "", true⟩),
         none, true, true, .ok [], .timedOut⟩).configFileCreated = false ∧
    (execute_mirrord_run "d" "default"
        ⟨true, .ok (), .completed (.ok ⟨some 0, "p", "", true⟩),
         none, true, true, .ok [], .timedOut⟩).mirrordInvoked = false :=
  executor_invalid_json_no_writes _ "d" "default" "p" rfl rfl rfl rfl

/-- C3: when the kubectl query completes with exit status 0 and empty
stdout, resolution fails with the "No pod found for deployment" error, that
error is the executor's result, and the mirrord execution step is never
invoked. -/
theorem executor_empty_pod_not_found
    (env : ExecEnv) (deployment nspace : String) (out : ProcOutput)
    (htd : env.tempdirOk = true) (hsetup : env.setupResult = .ok ())
    (hk : env.kubectl = .completed (.ok out))
    (hcode : out.exitCode = some 0) (hutf : out.stdoutUtf8 = true)
    (hempty : out.stdout = "") :
    get_pod_name deployment env.kubectl =
      .error ⟨"No pod found for deployment: " ++ deployment⟩ ∧
    (execute_mirrord_run deployment nspace env).result =
      .error ⟨"No pod found for deployment: " ++ deployment⟩ ∧
    (execute_mirrord_run deployment nspace env).mirrordInvoked = false := by
  have hsucc : out.success = true := by simp [ProcOutput.success, hcode]
  refine ⟨?_, ?_, ?_⟩ <;>
    simp [execute_mirrord_run, update_mirrord_config, get_pod_name,
      handle_kubectl_output, htd, hsetup, hk, hsucc, hutf, hempty]

/-- C3 (witness): the executor evaluated at a concrete environment in which
kubectl exits 0 with empty stdout. -/
theorem executor_empty_pod_not_found_witness :
    get_pod_name "checkout" (TaskOutcome.completed (.ok ⟨some 0, "", "", true⟩)) =
      .error ⟨"No pod found for deployment: " ++ "checkout"⟩ ∧
    (execute_mirrord_run "checkout" "default"
        ⟨true, .ok (), .completed (.ok ⟨some 0, "", "", true⟩),
         some (Json.obj []), true, true, .ok [], .timedOut⟩).result =
      .error ⟨"No pod found for deployment: " ++ "checkout"⟩ ∧
    (execute_mirrord_run "checkout" "default"
        ⟨true, .ok (), .completed (.ok ⟨some 0, "", "", true⟩),
         some (Json.obj []), true, true, .ok [], .timedOut⟩).mirrordInvoked = false :=
  executor_empty_pod_not_found
    ⟨true, .ok (), .completed (.ok ⟨some 0, "", "", true⟩),
     some (Json.obj []), true, true, .ok [], .timedOut⟩
    "checkout" "default" ⟨some 0, "", "", true⟩
    rfl rfl rfl rfl rfl rfl

/-- C4: when the mirrord child process does not complete within the
120-second deadline, the executor's result is the timeout error (not the
child's output), and the deadline constant is 120 seconds. -/
theorem executor_timeout
    (env : ExecEnv) (deployment nspace pod : String)
    (fields : List (String × Json)) (args : List String)
    (htd : env.tempdirOk = true) (hsetup : env.setupResult = .ok ())
    (hpod : get_pod_name deployment env.kubectl = .ok pod)
    (hparse : env.parsedConfig = some (.obj fields))
    (hcf : env.configFileOk = true) (hcw : env.configWriteOk = true)
    (hargs : env.commandArgs = .ok args)
    (hmir : env.mirrord = .timedOut) :
    (execute_mirrord_run deployment nspace env).result =
      .error ⟨"Mirrord execution timed out after " ++
        toString MIRRORD_EXEC_TIMEOUT ++ "s"⟩ ∧
    MIRRORD_EXEC_TIMEOUT = 120 := by
  refine ⟨?_, rfl⟩
  simp [execute_mirrord_run, update_mirrord_config, htd, hsetup, hpod,
    hparse, hcf, hcw, hargs, hmir]

/-- C4 (witness): the executor evaluated at a concrete environment whose
mirrord invocation exceeds the deadline. -/
theorem executor_timeout_witness :
    (execute_mirrord_run "d" "default"
        ⟨true, .ok (), .completed (.ok ⟨some 0, "p", "", true⟩),
         some (Json.obj []), true, true, .ok ["node", "index.js"],
         .timedOut⟩).result =
      .error ⟨"Mirrord execution timed out after " ++
        toString MIRRORD_EXEC_TIMEOUT ++ "s"⟩ ∧
    MIRRORD_EXEC_TIMEOUT = 120 :=
  executor_timeout _ "d" "default" "p" [] ["node", "index.js"]
    rfl rfl rfl rfl rfl rfl rfl rfl

/-- C5 (amended): for a mirrord invocation that is reached and completes
within the deadline, exit status 0 returns exactly the child's stdout (the
stderr is not part of the payload); a non-zero exit code c yields the
failure error carrying c and the child's stderr; a signal-killed child
(no exit code) yields the failure error carrying "None" (the source renders
a missing code as "None", not "unknown") and the stderr; a spawn failure
with ErrorKind NotFound yields the fixed mirrord-not-found error, which no
other spawn failure message can equal. -/
theorem executor_outcome_classification
    (env : ExecEnv) (deployment nspace pod : String)
    (fields : List (String × Json)) (args : List String)
    (htd : env.tempdirOk = true) (hsetup : env.setupResult = .ok ())
    (hpod : get_pod_name deployment env.kubectl = .ok pod)
    (hparse : env.parsedConfig = some (.obj fields))
    (hcf : env.configFileOk = true) (hcw : env.configWriteOk = true)
    (hargs : env.commandArgs = .ok args) :
    (∀ out : ProcOutput, env.mirrord = .completed (.ok out) →
      out.exitCode = some 0 →
      (execute_mirrord_run deployment nspace env).result = .ok out.stdout) ∧
    (∀ (out : ProcOutput) (c : Int), env.mirrord = .completed (.ok out) →
      out.exitCode = some c → c ≠ 0 →
      (execute_mirrord_run deployment nspace env).result =
        .error ⟨"Mirrord execution failed (Exit Code: " ++ toString c ++
          "): " ++ out.stderr⟩) ∧
    (∀ out : ProcOutput, env.mirrord = .completed (.ok out) →
      out.exitCode = none →
      (execute_mirrord_run deployment nspace env).result =
        .error ⟨"Mirrord execution failed (Exit Code: None): " ++ out.stderr⟩) ∧
    (∀ e : OsErr, env.mirrord = .completed (.error e) → e.notFound = true →
      (execute_mirrord_run deployment nspace env).result =
        .error ⟨"Failed to execute mirrord: 'mirrord' command not found in PATH."⟩) ∧
    (∀ e : OsErr, env.mirrord = .completed (.error e) → e.notFound = false →
      (execute_mirrord_run deployment nspace env).result =
        .error ⟨"Failed to start mirrord process: " ++ e.msg⟩) ∧
    (∀ m : String,
      ("Failed to execute mirrord: 'mirrord' command not found in PATH." : String) ≠
        "Failed to start mirrord process: " ++ m) := by
  refine ⟨?_, ?_, ?_, ?_, ?_, ?_⟩
  · intro out hm hcode
    have hsucc : out.success = true := by simp [ProcOutput.success, hcode]
    simp [execute_mirrord_run, update_mirrord_config, htd, hsetup, hpod,
      hparse, hcf, hcw, hargs, hm, hsucc]
  · intro out c hm hcode hc0
    have hsucc : out.success = false := by
      simp [ProcOutput.success, hcode, hc0]
    simp [execute_mirrord_run, update_mirrord_config, htd, hsetup, hpod,
      hparse, hcf, hcw, hargs, hm, hsucc, exitCodeInfo, hcode]
  · intro out hm hcode
    have hsucc : out.success = false := by simp [ProcOutput.success, hcode]
    simp [execute_mirrord_run, update_mirrord_config, htd, hsetup, hpod,
      hparse, hcf, hcw, hargs, hm, hsucc, exitCodeInfo, hcode]
  · intro e hm hnf
    simp [execute_mirrord_run, update_mirrord_config, htd, hsetup, hpod,
      hparse, hcf, hcw, hargs, hm, hnf]
  · intro e hm hnf
    simp [execute_mirrord_run, update_mirrord_config, htd, hsetup, hpod,
      hparse, hcf, hcw, hargs, hm, hnf]
  · intro m h
    have h2 := congrArg String.data h
    rw [String.data_append] at h2
    have h3 : ("Failed to execute mirrord: 'mirrord' command not found in PATH.").data.take
        (("Failed to start mirrord process: ").data.length) =
        ("Failed to start mirrord process: ").data := by
      rw [h2]
      exact List.take_left _ _
    exact absurd h3 (by decide)

/-- C5 (witness): the outcome classification evaluated at a concrete
environment whose mirrord child exits 0 with stdout "hello": the payload is
exactly that stdout. -/
theorem executor_outcome_classification_witness :
    (execute_mirrord_run "d" "default"
        ⟨true, .ok (), .completed (.ok ⟨some 0, "p", "", true⟩),
         some (Json.obj []), true, true, .ok [],
         .completed (.ok ⟨some 0, "hello", "diag", true⟩)⟩).result =
      .ok "hello" :=
  (executor_outcome_classification
    ⟨true, .ok (), .completed (.ok ⟨some 0, "p", "", true⟩),
     some (Json.obj []), true, true, .ok [],
     .completed (.ok ⟨some 0, "hello", "diag", true⟩)⟩
    "d" "default" "p" [] [] rfl rfl rfl rfl rfl rfl rfl).1
    ⟨some 0, "hello", "diag", true⟩ rfl rfl

/-- C5 (counterexample): a signal-killed mirrord child (no exit code) makes
the executor's error message carry "None", not "unknown" as the claim
states. -/
theorem executor_signal_kill_counterexample :
    (execute_mirrord_run "d" "default"
        ⟨true, .ok (), .completed (.ok ⟨some 0, "p", "", true⟩),
         some (Json.obj []), true, true, .ok [],
         .completed (.ok ⟨none, "", "killed", true⟩)⟩).result =
      .error ⟨"Mirrord execution failed (Exit Code: None): killed"⟩ ∧
    ("Mirrord execution failed (Exit Code: None): killed" : String) ≠
      "Mirrord execution failed (Exit Code: unknown): killed" :=
  ⟨rfl, by decide⟩

/-- C2 (amended): in the shared executor, the workspace temp directory is
absent from the filesystem when `execute_mirrord_run` returns, on every exit
path (the `TempDir` guard is dropped on each return). -/
theorem executor_tempdir_always_removed
    (deployment nspace : String) (env : ExecEnv) :
    (execute_mirrord_run deployment nspace env).tempDirExists = false := by
  unfold execute_mirrord_run
  repeat' split
  all_goals rfl

/-- C2 (counterexample): the claim also covers the legacy Node variant `run`
(src/tools/node.rs), whose cleanup only runs after the mirrord invocation: a
request that fails at `npm install` returns its error with the per-request
workspace directory still on the filesystem. -/
theorem node_run_leaks_dir_counterexample :
    (node_run ⟨.ok "p", some (Json.obj []), true, true, true,
        .ok ⟨some 1, "", "boom", true⟩, true, true, true,
        .ok ⟨some 0, "", "", true⟩⟩).result =
      .error ⟨"npm install failed: boom"⟩ ∧
    (node_run ⟨.ok "p", some (Json.obj []), true, true, true,
        .ok ⟨some 1, "", "boom", true⟩, true, true, true,
        .ok ⟨some 0, "", "", true⟩⟩).dirExists = true :=
  ⟨rfl, rfl⟩

/-- C7: a Rust setup whose `cargo build` exits 0 but leaves no binary at
`project_dir/target/<mode>/mirrord-agent-code` fails with the
binary-not-found `SetupError`; a setup error makes the executor return the
error without reaching the mirrord execution step; likewise `run_service`
fails with its binary-not-found error and never invokes mirrord. -/
theorem rust_missing_binary_is_setup_error
    (compile_mode project_dir : String) (senv : RustSetupEnv) (out : ProcOutput)
    (h1 : senv.createSrcOk = true) (h2 : senv.writeCargoTomlOk = true)
    (h3 : senv.writeMainRsOk = true) (h4 : senv.cargo = .completed (.ok out))
    (h5 : out.exitCode = some 0) (h6 : senv.binaryExists = false) :
    rust_setup_project compile_mode project_dir senv =
      .error ⟨"Compiled binary not found after successful build at: " ++
        get_binary_path compile_mode project_dir⟩ ∧
    (∀ (env : ExecEnv) (deployment nspace : String) (e : McpError),
      env.tempdirOk = true → env.setupResult = .error e →
      (execute_mirrord_run deployment nspace env).result = .error e ∧
      (execute_mirrord_run deployment nspace env).mirrordInvoked = false) ∧
    (∀ (cm pd pod : String) (renv : RunServiceEnv)
        (j : Json) (bout : ProcOutput),
      renv.podResult = .ok pod → renv.parsedConfig = some j →
      renv.createDirOk = true → renv.writeCargoTomlOk = true →
      renv.writeMainRsOk = true → renv.cargo = .ok bout →
      bout.exitCode = some 0 → renv.binaryExists = false →
      (run_service cm pd renv).result =
        .error ⟨"Binary not found at: " ++
          (pd ++ "/target/" ++ cm ++ "/agent-code")⟩ ∧
      (run_service cm pd renv).mirrordInvoked = false) := by
  have hsucc : out.success = true := by simp [ProcOutput.success, h5]
  refine ⟨?_, ?_, ?_⟩
  · simp [rust_setup_project, h1, h2, h3, h4, hsucc, h6]
  · intro env deployment nspace e htd hsetup
    simp [execute_mirrord_run, htd, hsetup]
  · intro cm pd pod renv j bout hp hj hc1 hc2 hc3 hc4 hc5 hc6
    have hbsucc : bout.success = true := by simp [ProcOutput.success, hc5]
    refine ⟨?_, ?_⟩ <;>
      simp [run_service, hp, hj, hc1, hc2, hc3, hc4, hbsucc, hc6]

/-- C7 (witness): the missing-binary setup error evaluated at a concrete
environment (release mode, build exits 0, no binary), and the executor's
short-circuit on that setup error. -/
theorem rust_missing_binary_is_setup_error_witness :
    rust_setup_project "release" "/tmp/proj"
        ⟨true, true, true, .completed (.ok ⟨some 0, "", "", true⟩), false⟩ =
      .error ⟨"Compiled binary not found after successful build at: " ++
        get_binary_path "release" "/tmp/proj"⟩ ∧
    (execute_mirrord_run "d" "default"
        ⟨true,
         .error ⟨"Compiled binary not found after successful build at: " ++
           get_binary_path "release" "/tmp/proj"⟩,
         .timedOut, none, true, true, .ok [], .timedOut⟩).mirrordInvoked =
      false := by
  have h := rust_missing_binary_is_setup_error "release" "/tmp/proj"
    ⟨true, true, true, .completed (.ok ⟨some 0, "", "", true⟩), false⟩
    ⟨some 0, "", "", true⟩ rfl rfl rfl rfl rfl rfl
  exact ⟨h.1, (h.2.1 ⟨true, .error ⟨"Compiled binary not found after successful build at: " ++
    get_binary_path "release" "/tmp/proj"⟩, .timedOut, none, true, true, .ok [], .timedOut⟩
    "d" "default" _ rfl rfl).2⟩

/-- C9: the Raw-Command tokenizer (modelled from the spec, see
`splitShellWords`) splits the command line with shell-word semantics: the
input with a double-quoted middle argument yields exactly the three
arguments `echo`, `a b`, `c`. -/
theorem raw_command_tokenization :
    splitShellWords "echo \"a b\" c" = ["echo", "a b", "c"] := by decide
